import Mathlib

/-!
Verification of the socialmedia-cli content-generation pipeline.

Shallow embedding of the Python sources:
  * `socialmedia_cli/writers/tweet_writer.py`  (draft / refine / rank)
  * `socialmedia_cli/llm/providers/openai.py`  (generate_tweets normalisation,
    format_for_twitter)
  * `socialmedia_cli/drafts/manager.py` and `socialmedia_cli/core/storage.py`
    (draft store)
  * `socialmedia_cli/collectors/web_search.py` (collect)
  * `socialmedia_cli/llm/base.py`              (provider registry)
  * `socialmedia_cli/pipelines/daily_digest.py` (orchestrator)

Python strings are embedded as lists of characters (`Str`); Python `float`
scores are embedded as rationals (the claims under scrutiny only concern
which decimal literals parse and how parsed values compare, never rounding);
fallible Python code returns `Except`, with the exception class recorded in
an `ErrKind` tag mirroring the classes of `socialmedia_cli/core/errors.py`
plus the built-in `ValueError` / `IndexError` / `RuntimeError`.
-/

/-- A Python string, as its sequence of code points. -/
abbrev Str := List Char

namespace Py

/-- Python `str.split(sep)` for a one-character separator: splits at every
occurrence, keeping empty pieces (`''.split(sep) == ['']`).  All separators
used by the repository (`':'`, `'-'`, `'\n'`, `'.'`) are single characters. -/
def splitChar (sep : Char) : Str → List Str
  | [] => [[]]
  | c :: cs =>
    let r := splitChar sep cs
    if c = sep then [] :: r
    else
      match r with
      | [] => [[c]]
      | h :: t => (c :: h) :: t

/-- Helper for whitespace splitting: split at every whitespace character,
keeping empty pieces. -/
def splitWsAux : Str → List Str
  | [] => [[]]
  | c :: cs =>
    let r := splitWsAux cs
    if c.isWhitespace then [] :: r
    else
      match r with
      | [] => [[c]]
      | h :: t => (c :: h) :: t

/-- Python `str.split()` (no argument): split on whitespace runs, dropping
empty pieces. -/
def splitWs (s : Str) : List Str :=
  (splitWsAux s).filter (fun t => t ≠ [])

/-- Python `str.strip()`: remove leading and trailing whitespace. -/
def strip (s : Str) : Str :=
  ((s.dropWhile Char.isWhitespace).reverse.dropWhile Char.isWhitespace).reverse

/-- Python `str.startswith(p)`. -/
def startsWith (s p : Str) : Bool := p.isPrefixOf s

/-- Python `int(s)`: optional surrounding whitespace, optional sign, at
least one decimal digit.  (Underscored literals are not used by any input
relevant to the claims and are not modelled.) -/
def toInt? (s : Str) : Option Int :=
  let t := strip s
  let (sign, u) : Int × Str :=
    match t with
    | '-' :: rest => (-1, rest)
    | '+' :: rest => (1, rest)
    | _ => (1, t)
  if u ≠ [] ∧ u.all Char.isDigit then
    some (sign * (u.foldl (fun acc c => 10 * acc + (c.toNat - '0'.toNat)) 0 : Nat))
  else none

/-- Digit-list value helper for `toFloat?`. -/
def digitsVal (u : Str) : Nat :=
  u.foldl (fun acc c => 10 * acc + (c.toNat - '0'.toNat)) 0

/-- Python `float(s)` on the decimal literals the pipeline can meet:
optional surrounding whitespace, optional sign, `digits`, `digits.digits`,
`digits.` or `.digits`.  The value is built with the kernel-computable
`Rat.divInt`.  (Exponent, infinity and NaN forms never appear in the claims'
scope and are not modelled; a string outside this grammar is a `ValueError`,
i.e. `none`.) -/
def toFloat? (s : Str) : Option ℚ :=
  let t := strip s
  let (sign, u) : Int × Str :=
    match t with
    | '-' :: rest => (-1, rest)
    | '+' :: rest => (1, rest)
    | _ => (1, t)
  match splitChar '.' u with
  | [a] =>
    if a ≠ [] ∧ a.all Char.isDigit then some (Rat.divInt (sign * digitsVal a) 1) else none
  | [a, b] =>
    if (a ≠ [] ∨ b ≠ []) ∧ a.all Char.isDigit ∧ b.all Char.isDigit then
      some (Rat.divInt (sign * (digitsVal a * 10 ^ b.length + digitsVal b)) (10 ^ b.length))
    else none
  | _ => none

end Py

/-- Exception classes: the repository's own hierarchy
(`socialmedia_cli/core/errors.py`) plus the Python built-ins the code
raises or lets escape. -/
inductive ErrKind where
  | configError | llmError | collectorError | writerError | pipelineError
  | valueError | indexError | runtimeError | nameError | keyError
deriving DecidableEq, Repr

/-- A raised Python exception: its class and its `str(e)` message. -/
structure Err where
  kind : ErrKind
  msg : Str
deriving DecidableEq, Repr

/-- A provider's `generate` method (`BaseLLM.generate` contract:
prompt in, text out, may raise). -/
abbrev LLM := Str → Except Err Str

/-- `DraftTweet` from `socialmedia_cli/writers/tweet_writer.py`. -/
structure DraftTweet where
  id : Str
  text : Str
  score : Option ℚ := none
  reason : Option Str := none
deriving DecidableEq, Repr

example : Py.splitChar ':' "a:b::c".toList = ["a".toList, "b".toList, "".toList, "c".toList] := by
  decide

example : Py.strip "  hi  ".toList = "hi".toList := by decide

example : Py.toInt? " 12 ".toList = some 12 := by decide
example : Py.toInt? "x2".toList = none := by decide
example : Py.toFloat? "0.5".toList = some (Rat.divInt 1 2) := by decide
example : (0 : ℚ) ≤ Rat.divInt 1 2 := by decide
example : Option.getD (some (Rat.divInt 1 2)) 0 = Rat.divInt 1 2 := by decide
example : Py.toFloat? "abc".toList = none := by decide
example : Py.splitWs "  SCORE  0.5 ".toList = ["SCORE".toList, "0.5".toList] := by decide

/-! ## Python's stable sort

`sorted(xs, key=k, reverse=True)` is Python's stable sort under the
reversed key comparison: the unique reordering that is sorted for the
comparison and keeps elements that compare equal in their original
relative order.  `pySorted` realises that function as a structural
insertion sort (computable by the kernel), parameterised by the Boolean
comparison `le`; an element is placed before the first element it
compares `le` to, which for elements comparing equal keeps the earlier
input element first. -/

def insertSorted (le : α → α → Bool) (x : α) : List α → List α
  | [] => [x]
  | y :: ys => if le x y then x :: y :: ys else y :: insertSorted le x ys

def pySorted (le : α → α → Bool) : List α → List α
  | [] => []
  | x :: xs => insertSorted le x (pySorted le xs)

/-- The sort key of `sorted(tweets, key=lambda t: t.score or 0, reverse=True)`
(`tweet_writer.py` line 74): an absent score counts as `0`. -/
def effScore (t : DraftTweet) : ℚ := t.score.getD 0

/-- The Boolean comparison realising `reverse=True` over `effScore`. -/
def scoreGe (a b : DraftTweet) : Bool := decide (effScore b ≤ effScore a)

namespace TweetWriter

/-- The fixed marker of `draft` (`tweet_writer.py` line 33). -/
def marker : Str := "TWEET:".toList

/-- The `draft` prompt (`tweet_writer.py` lines 19-27): an f-string whose
interpolations (`n`, the joined bullets, `chars`) are all well defined. -/
def draftPromptText (bullets : List Str) (n chars : Nat) : Str :=
  "Create ".toList ++ (Nat.repr n).toList ++
  " engaging tweets based on these bullet points:\n    ".toList ++
  List.intercalate ['\n'] (bullets.map (fun b => "- ".toList ++ b)) ++
  "\n    \n    Requirements:\n    - Each tweet must be under ".toList ++
  (Nat.repr chars).toList ++
  " characters\n    - Include relevant hashtags\n    - Make it engaging and informative\n    - Format each tweet on a new line starting with \"TWEET:\"\n    ".toList

/-- `tweet_writer.draft` (lines 17-41).  `uuid.uuid4()` is modelled by the
id stream `ids`: the `k`-th appended tweet receives `ids k`.  The only
fallible step inside the `try` block is `llm.generate`; its failure is
re-raised as `WriterError`. -/
def draft (bullets : List Str) (n chars : Nat) (llm : LLM) (ids : Nat → Str) :
    Except Err (List DraftTweet) :=
  match llm (draftPromptText bullets n chars) with
  | .error e => .error ⟨.writerError, "Failed to draft tweets: ".toList ++ e.msg⟩
  | .ok response =>
    let ls := (Py.splitChar '\n' response).filter
      (fun l => Py.startsWith (Py.strip l) marker)
    .ok ((ls.enum.map
      (fun p => ({ id := ids p.1, text := Py.strip (p.2.drop 6) } : DraftTweet))).take n)

/-- `tweet_writer.refine` (lines 43-46): a pass-through. -/
def refine (tweets : List DraftTweet) : List DraftTweet := tweets

/-- The `rank` prompt (`tweet_writer.py` lines 50-58).  The f-string's last
line, `Format each response as "TWEET {i+1}: SCORE {score} - {reason}"`,
interpolates the names `i`, `score` and `reason`, none of which is in
scope (`i` is local to the generator expression of the second field and
does not leak; `score` and `reason` are only assigned later, inside the
parsing loop).  Evaluating the f-string therefore raises
`NameError: name 'i' is not defined` after the enumeration field has been
computed, before `llm.generate` is ever called — and this happens outside
the `try` block that begins at line 60. -/
def rankPromptText (tweets : List DraftTweet) : Except Err Str :=
  let _enumeration := List.intercalate ['\n']
    (tweets.enum.map (fun p => (Nat.repr (p.1 + 1)).toList ++ ". ".toList ++ p.2.text))
  .error ⟨.nameError, "name 'i' is not defined".toList⟩

/-- Update `tweets[k].score` and `tweets[k].reason` (both attributes of the
same list element, so one functional update). -/
def setScore (tweets : List DraftTweet) (k : Nat) (sc : ℚ) (reason : Str) :
    List DraftTweet :=
  match tweets[k]? with
  | none => tweets
  | some t => tweets.set k { t with score := some sc, reason := some reason }

/-- One iteration of the parsing loop of `rank` (`tweet_writer.py`
lines 62-72), on one response line:
  * lines not starting with `TWEET`, or splitting on `':'` into a number
    of parts other than two, are skipped;
  * `int(parts[0].split()[1])` raises `IndexError` when the token is
    missing and `ValueError` when it is not an integer literal;
  * when the remainder splits on `'-'` into other than two parts, or the
    index is `≥ len(tweets)`, the line is skipped;
  * otherwise `float(score_parts[0].split()[-1])` raises `IndexError` /
    `ValueError` likewise, and the assignment `tweets[idx] = ...` uses
    Python indexing: a negative `idx` counts from the end and raises
    `IndexError` below `-len(tweets)`. -/
def rankStep (tweets : List DraftTweet) (line : Str) : Except Err (List DraftTweet) :=
  if Py.startsWith line "TWEET".toList then
    match Py.splitChar ':' line with
    | [p0, p1] =>
      match (Py.splitWs p0)[1]? with
      | none => .error ⟨.indexError, "list index out of range".toList⟩
      | some tok =>
        match Py.toInt? tok with
        | none =>
          .error ⟨.valueError,
            "invalid literal for int() with base 10: '".toList ++ tok ++ "'".toList⟩
        | some i =>
          let idx : Int := i - 1
          match Py.splitChar '-' p1 with
          | [s0, s1] =>
            if idx < (tweets.length : Int) then
              match (Py.splitWs s0).getLast? with
              | none => .error ⟨.indexError, "list index out of range".toList⟩
              | some stok =>
                match Py.toFloat? stok with
                | none =>
                  .error ⟨.valueError,
                    "could not convert string to float: '".toList ++ stok ++ "'".toList⟩
                | some sc =>
                  let reason := Py.strip s1
                  if 0 ≤ idx then .ok (setScore tweets idx.toNat sc reason)
                  else if 0 ≤ idx + tweets.length then
                    .ok (setScore tweets (idx + tweets.length).toNat sc reason)
                  else .error ⟨.indexError, "list assignment index out of range".toList⟩
            else .ok tweets
          | _ => .ok tweets
    | _ => .ok tweets
  else .ok tweets

/-- The whole parsing loop of `rank` over the response lines. -/
def rankLines (tweets : List DraftTweet) (lines : List Str) :
    Except Err (List DraftTweet) :=
  lines.foldlM rankStep tweets

/-- The `try` block of `rank` (`tweet_writer.py` lines 60-76) for a given
prompt: call the backend, run the parsing loop, sort; any exception is
re-raised as `WriterError` carrying the original message. -/
def rankBody (tweets : List DraftTweet) (llm : LLM) (prompt : Str) :
    Except Err (List DraftTweet) :=
  match llm prompt with
  | .error e => .error ⟨.writerError, "Failed to rank tweets: ".toList ++ e.msg⟩
  | .ok response =>
    match rankLines tweets (Py.splitChar '\n' response) with
    | .error e => .error ⟨.writerError, "Failed to rank tweets: ".toList ++ e.msg⟩
    | .ok ts => .ok (pySorted scoreGe ts)

/-- `tweet_writer.rank` (lines 48-76): prompt construction happens before
the `try` block, so its `NameError` propagates unwrapped. -/
def rank (tweets : List DraftTweet) (llm : LLM) : Except Err (List DraftTweet) :=
  match rankPromptText tweets with
  | .error e => .error e
  | .ok prompt => rankBody tweets llm prompt

end TweetWriter

namespace OpenAIP

/-- One element of the `tweets` list inside `generate_tweets`
(`openai.py` lines 79-102), as produced by either parsing branch.  Both
branches yield dictionaries; `t.get("text", "")` and
`t.get("image_prompt")` collapse a missing key and an empty string to the
same observable value, so each field is carried as a plain string with
`[]` for "missing or empty". -/
structure RawTweet where
  text : Str := []
  image_prompt : Str := []
  alt_text : Str := []
deriving DecidableEq, Repr

/-- One element of the list returned by `generate_tweets`
(`openai.py` lines 110-116). -/
structure CleanTweet where
  text : Str
  image_prompt : Option Str
  alt_text : Option Str
deriving DecidableEq, Repr

/-- Python `x or None` for a string `x`. -/
def orNone (s : Str) : Option Str := if s = [] then none else some s

/-- The truncation of `generate_tweets` (`openai.py` lines 108-109):
`if len(text) > 280: text = text[:277] + "…"`. -/
def truncate280 (s : Str) : Str :=
  if 280 < s.length then s.take 277 ++ "…".toList else s

/-- `generate_tweets`, normalisation and truncation step (`openai.py`
lines 104-119).  The two extraction branches (lines 79-102: `json.loads`
on the fence-stripped payload, else the Markdown block regex) are taken as
the already-extracted list `tweets`; every claim about this function is
universally quantified over that list, or assumes it empty. -/
def generate_tweets (tweets : List RawTweet) (num_tweets : Nat) :
    Except Err (List CleanTweet) :=
  let cleaned := (tweets.take num_tweets).map (fun t =>
    let text := truncate280 (Py.strip t.text)
    ({ text := text, image_prompt := orNone t.image_prompt,
       alt_text := orNone t.alt_text } : CleanTweet))
  if cleaned = [] then .error ⟨.runtimeError, "No tweets parsed from LLM output".toList⟩
  else .ok cleaned

/-- Python `s[:k]` for a possibly negative `k`. -/
def pyTakeSlice (s : Str) (k : Int) : Str :=
  if 0 ≤ k then s.take k.toNat else s.take ((s.length : Int) + k).toNat

/-- The hashtag block of `format_for_twitter` (`openai.py` lines 133-137). -/
def tagBlock (hashtags : List Str) : Str :=
  Py.strip (List.intercalate [' ']
    ((hashtags.filter (fun tag => tag ≠ [])).map
      (fun tag => '#' :: tag.dropWhile (fun c => c = '#'))))

/-- The loop body of `format_for_twitter` for one non-blank tweet. -/
def formatOne (tag_block : Str) (body : Str) : Str :=
  let full := if tag_block ≠ [] then body ++ "\n\n".toList ++ tag_block else body
  if 280 < full.length then
    let room : Int := 280 - (if tag_block ≠ [] then (tag_block.length : Int) + 2 else 0)
    let full2 := pyTakeSlice body (room - 1) ++ "…".toList
    if tag_block ≠ [] then full2 ++ "\n\n".toList ++ tag_block else full2
  else full

/-- `format_for_twitter` (`openai.py` lines 121-158): builds the final
bodies, skipping tweets whose stripped text is empty. -/
def format_for_twitter (tweets : List CleanTweet) (hashtags : List Str) : List Str :=
  let tb := tagBlock hashtags
  tweets.filterMap (fun t =>
    let body := Py.strip t.text
    if body = [] then none else some (formatOne tb body))

end OpenAIP

namespace WebSearch

/-- The `collect` prompt (`web_search.py` lines 9-11); its interpolations
(`topic`, `hours`) are well defined. -/
def collectPromptText (topic : Str) (hours : Nat) : Str :=
  "Give me 5 bullet points about the most significant developments in ".toList ++
  topic ++
  " \n    over the last ".toList ++ (Nat.repr hours).toList ++
  " hours. Focus on concrete facts and avoid speculation.\n    Format each point as a single line starting with a bullet point.".toList

/-- The two bullet markers tested by `collect` (`web_search.py` line 19);
the first is the mojibake three-character sequence present in the source. -/
def bulletMarks : List Str := ["â€¢".toList, "-".toList]

/-- `web_search.collect` (lines 7-23): keep lines whose stripped form
starts with a bullet marker, take `line.strip()[2:].strip()`;
any exception from `llm.generate` is re-raised as `CollectorError`. -/
def collect (topic : Str) (hours : Nat) (llm : LLM) : Except Err (List Str) :=
  match llm (collectPromptText topic hours) with
  | .error e => .error ⟨.collectorError, "Failed to collect information: ".toList ++ e.msg⟩
  | .ok response =>
    .ok (((Py.splitChar '\n' response).filter
        (fun l => bulletMarks.any (fun m => Py.startsWith (Py.strip l) m))).map
      (fun l => Py.strip ((Py.strip l).drop 2)))

end WebSearch

namespace LLMBase

/-- The provider registry (`llm/base.py` line 5): a name-to-factory map; a
factory takes the model name and yields the client's `generate` method. -/
abbrev Registry := List (Str × (Str → LLM))

/-- `llm.base.get_client` (lines 32-36). -/
def get_client (registry : Registry) (provider model : Str) : Except Err LLM :=
  match (registry.filter (fun e => e.1 = provider)).head? with
  | none => .error ⟨.valueError, "Unknown LLM provider: ".toList ++ provider⟩
  | some e => .ok (e.2 model)

end LLMBase

/-! ## Storage and draft store -/

/-- A JSON value, the image of `json.dumps`/`json.loads`.  Numbers are
rationals: the records written by the draft store hold only strings,
nulls and floats, and `json.dumps`/`json.loads` round-trips a float
exactly. -/
inductive Json where
  | null
  | str (s : Str)
  | num (q : ℚ)
  | arr (elems : List Json)
  | obj (fields : List (Str × Json))

/-- A filesystem path, by components. -/
abbrev FsPath := List Str

/-- The filesystem: each existing file's path with its JSONL content, one
JSON value per line (`json.dumps` never emits a bare newline or a blank
line, so a file written by `save_jsonl` is exactly its record list). -/
abbrev FS := List (FsPath × List Json)

namespace Storage

/-- `core.storage.save_jsonl` (lines 6-11): mode `'w'` truncates, so the
file's previous content (if any) is replaced. -/
def save_jsonl (path : FsPath) (records : List Json) (fs : FS) : FS :=
  (path, records) :: fs.filter (fun e => e.1 ≠ path)

/-- `core.storage.load_jsonl` (lines 13-23): a missing file yields `[]`. -/
def load_jsonl (path : FsPath) (fs : FS) : List Json :=
  match (fs.filter (fun e => e.1 = path)).head? with
  | none => []
  | some e => e.2

end Storage

namespace Drafts

/-- `DRAFTS_DIR` (`drafts/manager.py` line 9): `Path.home()` is the
abstract component `"~"`. -/
def DRAFTS_DIR : FsPath := ["~".toList, ".socialmedia_cli_drafts".toList]

/-- The record built by `save` for one tweet (`manager.py` lines 21-29). -/
def tweetToRecord (t : DraftTweet) : Json :=
  .obj [("id".toList, .str t.id),
        ("text".toList, .str t.text),
        ("score".toList, match t.score with | none => .null | some q => .num q),
        ("reason".toList, match t.reason with | none => .null | some r => .str r)]

/-- `drafts.manager.save` (lines 12-32).  `datetime.now().strftime("%Y-%m-%d")`
is the parameter `today`.  Returns the written path and the new filesystem. -/
def save (category topic : Str) (tweets : List DraftTweet) (out_dir : Option FsPath)
    (today : Str) (fs : FS) : FsPath × FS :=
  let dir := out_dir.getD DRAFTS_DIR
  let filename := category ++ ('_' :: topic) ++ ('_' :: today) ++ ".jsonl".toList
  let path := dir ++ [filename]
  (path, Storage.save_jsonl path (tweets.map tweetToRecord) fs)

/-- Key lookup in a JSON object (`r["k"]` / `r.get("k")`). -/
def jget (j : Json) (k : Str) : Option Json :=
  match j with
  | .obj fields => ((fields.filter (fun f => f.1 = k)).head?).map (fun f => f.2)
  | _ => none

/-- One record of `load` (`manager.py` lines 42-49): `r["id"]` and
`r["text"]` raise `KeyError` when absent, `r.get("score")` / `r.get("reason")`
default to `None`.  The fields of a record written by `save` are a string,
a string, a float-or-null and a string-or-null; this decoder expects those
shapes (Python, being dynamically typed, would copy any other value
verbatim, which no file written by `save` can contain). -/
def recordToTweet (j : Json) : Except Err DraftTweet :=
  match jget j "id".toList, jget j "text".toList with
  | some (.str i), some (.str tx) =>
    .ok { id := i, text := tx,
          score := match jget j "score".toList with | some (.num q) => some q | _ => none,
          reason := match jget j "reason".toList with | some (.str r) => some r | _ => none }
  | _, _ => .error ⟨.keyError, "KeyError".toList⟩

/-- The list comprehension of `load` (`manager.py` lines 42-49): decode
each record in order; a raised `KeyError` propagates. -/
def mapRecords : List Json → Except Err (List DraftTweet)
  | [] => .ok []
  | j :: js =>
    match recordToTweet j with
    | .error e => .error e
    | .ok t =>
      match mapRecords js with
      | .error e => .error e
      | .ok ts => .ok (t :: ts)

/-- `drafts.manager.load` (lines 39-50). -/
def load (path : FsPath) (fs : FS) : Except Err (List DraftTweet) :=
  mapRecords (Storage.load_jsonl path fs)

/-- Lexicographic comparison of strings, as Python compares `str`. -/
def strLtB : Str → Str → Bool
  | [], [] => false
  | [], _ :: _ => true
  | _ :: _, [] => false
  | a :: as, b :: bs => if a < b then true else if b < a then false else strLtB as bs

/-- Lexicographic comparison of paths by components, as Python's `sorted`
compares `Path` values. -/
def pathLeB : FsPath → FsPath → Bool
  | [], _ => true
  | _ :: _, [] => false
  | a :: as, b :: bs => if strLtB a b then true else if strLtB b a then false else pathLeB as bs

/-- The glob pattern of `list_drafts` (`manager.py` line 36):
`"{category}_*.jsonl"` when a category is given, else `"*.jsonl"`. -/
def globMatch (category : Option Str) (name : Str) : Bool :=
  match category with
  | some c =>
    Py.startsWith name (c ++ ['_']) && ".jsonl".toList.isSuffixOf (name.drop (c.length + 1))
  | none => ".jsonl".toList.isSuffixOf name

/-- `drafts.manager.list_drafts` (lines 34-37): a non-recursive glob over
`DRAFTS_DIR` (only files whose parent directory is `DRAFTS_DIR` match),
sorted. -/
def list_drafts (fs : FS) (category : Option Str) : List FsPath :=
  pySorted pathLeB ((fs.map (fun e => e.1)).filter
    (fun p => p.dropLast = DRAFTS_DIR &&
      match p.getLast? with
      | some name => globMatch category name
      | none => false))

end Drafts

namespace Pipeline

/-- The orchestrator's uniform wrapper (`daily_digest.py` line 40). -/
def pipeWrap (e : Err) : Err :=
  ⟨.pipelineError, "Pipeline failed: ".toList ++ e.msg⟩

/-- `pipelines.daily_digest.run` (lines 13-40): provider lookup, collect,
draft, refine, rank, save, any failure re-raised as `PipelineError`; the
filesystem is only touched by `save`.  `datetime.now()` and `uuid.uuid4()`
are the parameters `today` and `ids`. -/
def run (registry : LLMBase.Registry) (topic : Str) (hours n chars : Nat)
    (provider model : Str) (out_dir : Option FsPath) (today : Str)
    (ids : Nat → Str) (fs : FS) : Except Err FsPath × FS :=
  match LLMBase.get_client registry provider model with
  | .error e => (.error (pipeWrap e), fs)
  | .ok llm =>
    match WebSearch.collect topic hours llm with
    | .error e => (.error (pipeWrap e), fs)
    | .ok bullets =>
      match TweetWriter.draft bullets n chars llm ids with
      | .error e => (.error (pipeWrap e), fs)
      | .ok drafts =>
        let refined := TweetWriter.refine drafts
        match TweetWriter.rank refined llm with
        | .error e => (.error (pipeWrap e), fs)
        | .ok ranked =>
          let r := Drafts.save "digest".toList topic ranked out_dir today fs
          (.ok r.1, r.2)

end Pipeline

/-! ## Properties of the stable sort -/

theorem insertSorted_perm (le : α → α → Bool) (x : α) (l : List α) :
    List.Perm (insertSorted le x l) (x :: l) := by
  induction l with
  | nil => simp [insertSorted]
  | cons y ys ih =>
    simp only [insertSorted]
    split
    · exact List.Perm.refl _
    · exact (List.Perm.cons y ih).trans (List.Perm.swap x y ys)

theorem pySorted_perm (le : α → α → Bool) (l : List α) :
    List.Perm (pySorted le l) l := by
  induction l with
  | nil => simp [pySorted]
  | cons x xs ih =>
    exact (insertSorted_perm le x (pySorted le xs)).trans (List.Perm.cons x ih)

theorem mem_pySorted (le : α → α → Bool) (l : List α) (a : α) :
    a ∈ pySorted le l ↔ a ∈ l :=
  (pySorted_perm le l).mem_iff

theorem insertSorted_pairwise (le : α → α → Bool)
    (htrans : ∀ a b c, le a b = true → le b c = true → le a c = true)
    (htot : ∀ a b, le a b = true ∨ le b a = true)
    (x : α) (l : List α) (hl : l.Pairwise (fun a b => le a b = true)) :
    (insertSorted le x l).Pairwise (fun a b => le a b = true) := by
  induction l with
  | nil => simp [insertSorted]
  | cons y ys ih =>
    rcases List.pairwise_cons.mp hl with ⟨hy, hys⟩
    simp only [insertSorted]
    split
    next hxy =>
      refine List.pairwise_cons.mpr ⟨?_, hl⟩
      intro z hz
      cases hz with
      | head => exact hxy
      | tail _ hz => exact htrans x y z hxy (hy z hz)
    next hxy =>
      have hyx : le y x = true := by
        rcases htot x y with h | h
        · exact absurd h hxy
        · exact h
      refine List.pairwise_cons.mpr ⟨?_, ih hys⟩
      intro z hz
      have hz' : z = x ∨ z ∈ ys := by
        have := (insertSorted_perm le x ys).mem_iff.mp hz
        simpa using this
      rcases hz' with rfl | hz'
      · exact hyx
      · exact hy z hz'

theorem pySorted_pairwise (le : α → α → Bool)
    (htrans : ∀ a b c, le a b = true → le b c = true → le a c = true)
    (htot : ∀ a b, le a b = true ∨ le b a = true)
    (l : List α) :
    (pySorted le l).Pairwise (fun a b => le a b = true) := by
  induction l with
  | nil => simp [pySorted]
  | cons x xs ih => exact insertSorted_pairwise le htrans htot x _ ih

theorem sublist_insertSorted (le : α → α → Bool) (x : α) (l : List α) :
    List.Sublist l (insertSorted le x l) := by
  induction l with
  | nil => simp [insertSorted]
  | cons y ys ih =>
    simp only [insertSorted]
    split
    · exact (List.Sublist.refl _).cons x
    · exact ih.cons₂ y

theorem pair_sublist_insertSorted (le : α → α → Bool) (x b : α)
    (hxb : le x b = true) :
    ∀ l : List α, List.Sublist [b] l → List.Sublist [x, b] (insertSorted le x l) := by
  intro l
  induction l with
  | nil => intro h; cases h
  | cons y ys ih =>
    intro h
    simp only [insertSorted]
    split
    next hxy => exact h.cons₂ x
    next hxy =>
      cases h with
      | cons _ h' => exact (ih h').cons y
      | cons₂ _ h' => exact absurd hxb hxy

/-- Stability: two elements of the input that compare equal keep their
relative order in the sort's output. -/
theorem pair_sublist_pySorted (le : α → α → Bool) (a b : α)
    (hab : le a b = true) (_hba : le b a = true) :
    ∀ l : List α, List.Sublist [a, b] l → List.Sublist [a, b] (pySorted le l) := by
  intro l
  induction l with
  | nil => intro h; cases h
  | cons x xs ih =>
    intro h
    cases h with
    | cons _ h' =>
      exact (ih h').trans (sublist_insertSorted le x (pySorted le xs))
    | cons₂ _ h' =>
      have hb : List.Sublist [b] (pySorted le xs) := by
        rw [List.singleton_sublist] at h' ⊢
        exact (mem_pySorted le xs b).mpr h'
      exact pair_sublist_insertSorted le a b hab _ hb

/-! ## Facts about the score comparison -/

theorem scoreGe_trans : ∀ a b c : DraftTweet,
    scoreGe a b = true → scoreGe b c = true → scoreGe a c = true := by
  intro a b c hab hbc
  simp only [scoreGe, decide_eq_true_eq] at *
  exact le_trans hbc hab

theorem scoreGe_total : ∀ a b : DraftTweet, scoreGe a b = true ∨ scoreGe b a = true := by
  intro a b
  simp only [scoreGe, decide_eq_true_eq]
  exact le_total (effScore b) (effScore a)

/-! ## Claims about the Ranker -/

/-- C5.  The claim describes the sort at `tweet_writer.py` line 74:
`sorted(tweets, key=lambda t: t.score or 0, reverse=True)` — a stable sort,
descending by score, an absent score counting as `0`.  That description is
exactly right for the sort expression, but the sort is never executed: the
f-string building the critique prompt (line 57) interpolates the undefined
names `i`, `score`, `reason` and raises `NameError` before the `try` block,
so every call of `rank` fails (first conjunct).  The remaining conjuncts
verify the claim's content for the `try`-block code itself: had the prompt
been constructed, a successful backend call followed by the parsing loop
would return `pySorted scoreGe` of the assigned list, which is a
permutation of it, descending in effective score, and stable (two
candidates of equal effective score keep their pre-sort relative order). -/
theorem rank_sort_stable_but_unreachable :
    (∀ (ts : List DraftTweet) (llm : LLM),
      TweetWriter.rank ts llm = .error ⟨.nameError, "name 'i' is not defined".toList⟩) ∧
    (∀ (ts : List DraftTweet) (llm : LLM) (prompt resp : Str) (ts' : List DraftTweet),
      llm prompt = .ok resp →
      TweetWriter.rankLines ts (Py.splitChar '\n' resp) = .ok ts' →
      TweetWriter.rankBody ts llm prompt = .ok (pySorted scoreGe ts') ∧
      List.Perm (pySorted scoreGe ts') ts' ∧
      (pySorted scoreGe ts').Pairwise (fun a b => effScore b ≤ effScore a) ∧
      (∀ a b, effScore a = effScore b → List.Sublist [a, b] ts' →
        List.Sublist [a, b] (pySorted scoreGe ts'))) := by
  constructor
  · intro ts llm
    rfl
  · intro ts llm prompt resp ts' hllm hlines
    refine ⟨?_, pySorted_perm scoreGe ts', ?_, ?_⟩
    · simp [TweetWriter.rankBody, hllm, hlines]
    · have := pySorted_pairwise scoreGe scoreGe_trans scoreGe_total ts'
      exact this.imp (fun h => by simpa [scoreGe, decide_eq_true_eq] using h)
    · intro a b hscore hsub
      refine pair_sublist_pySorted scoreGe a b ?_ ?_ ts' hsub
      · simp [scoreGe, hscore]
      · simp [scoreGe, hscore]

/-- Witness for `rank_sort_stable_but_unreachable`: one tweet, a backend
answering a line that matches no parse shape, so the parsing loop returns
the list unchanged and the body sorts a one-element list. -/
theorem rank_sort_stable_but_unreachable_witness :
    TweetWriter.rankBody [{ id := "i1".toList, text := "a".toList }]
        (fun _ => .ok "nope".toList) "p".toList =
      .ok (pySorted scoreGe [{ id := "i1".toList, text := "a".toList }]) ∧
    List.Perm (pySorted scoreGe [{ id := "i1".toList, text := "a".toList }])
      [{ id := "i1".toList, text := "a".toList }] ∧
    (pySorted scoreGe [{ id := "i1".toList, text := "a".toList }]).Pairwise
      (fun a b => effScore b ≤ effScore a) ∧
    (∀ a b, effScore a = effScore b →
      List.Sublist [a, b] [{ id := "i1".toList, text := "a".toList }] →
      List.Sublist [a, b] (pySorted scoreGe [{ id := "i1".toList, text := "a".toList }])) :=
  rank_sort_stable_but_unreachable.2
    [{ id := "i1".toList, text := "a".toList }]
    (fun _ => .ok "nope".toList) "p".toList "nope".toList
    [{ id := "i1".toList, text := "a".toList }] rfl rfl

/-- A response line that fails the shape guards of the parsing loop
(`tweet_writer.py` lines 63-65): it does not start with `TWEET`, or does
not split on `':'` into exactly two parts. -/
def shapeSkipped (l : Str) : Bool :=
  !(Py.startsWith l "TWEET".toList) ||
  (match Py.splitChar ':' l with
   | [_, _] => false
   | _ => true)

/-- C3 counterexample.  A one-candidate rank call whose backend would
succeed with a perfectly well-formed score line: the claim says such a
call never raises, yet `rank` fails — with a `NameError` (not a
`WriterError`), raised while the critique prompt's f-string evaluates its
undefined placeholders, before the backend is ever consulted. -/
theorem rank_raises_although_backend_succeeds :
    TweetWriter.rank [{ id := "i1".toList, text := "a".toList }]
        (fun _ => .ok "TWEET 1: SCORE 0.9 - good".toList) =
      .error ⟨.nameError, "name 'i' is not defined".toList⟩ ∧
    ErrKind.nameError ≠ ErrKind.writerError :=
  ⟨rfl, by decide⟩

/-- C3 amended.  (1) `rank` always fails: the critique prompt's f-string
(line 57) raises `NameError` before the `try` block, whatever the backend
would do.  (2) In the response-parsing loop itself (lines 62-72,
unreachable as written), a line failing the `TWEET`-prefix or
exactly-one-colon guard is silently skipped.  (3-4) But a guard-passing
line whose score token is not numeric is *not* skipped: `float()` raises
`ValueError` inside the `try` block, so (4) the whole rank body aborts
with a `WriterError` wrapping that message, although the backend call
succeeded. -/
theorem rank_error_discipline :
    (∀ (ts : List DraftTweet) (llm : LLM),
      TweetWriter.rank ts llm = .error ⟨.nameError, "name 'i' is not defined".toList⟩) ∧
    (∀ (ts : List DraftTweet) (l : Str), shapeSkipped l = true →
      TweetWriter.rankStep ts l = .ok ts) ∧
    (∀ (t : DraftTweet) (rest : List DraftTweet),
      TweetWriter.rankStep (t :: rest) "TWEET 1: SCORE abc - nice".toList =
        .error ⟨.valueError, "could not convert string to float: 'abc'".toList⟩) ∧
    (∀ (t : DraftTweet) (rest : List DraftTweet) (llm : LLM) (prompt : Str),
      llm prompt = .ok "TWEET 1: SCORE abc - nice".toList →
      TweetWriter.rankBody (t :: rest) llm prompt =
        .error ⟨.writerError,
          "Failed to rank tweets: could not convert string to float: 'abc'".toList⟩) := by
  have step_abc : ∀ (t : DraftTweet) (rest : List DraftTweet),
      TweetWriter.rankStep (t :: rest) "TWEET 1: SCORE abc - nice".toList =
        .error ⟨.valueError, "could not convert string to float: 'abc'".toList⟩ := by
    intro t rest
    have h0 : Py.splitChar ':' "TWEET 1: SCORE abc - nice".toList =
        ["TWEET 1".toList, " SCORE abc - nice".toList] := rfl
    have h1 : Py.splitChar '-' " SCORE abc - nice".toList =
        [" SCORE abc ".toList, " nice".toList] := rfl
    have h2 : (Py.splitWs "TWEET 1".toList)[1]? = some "1".toList := rfl
    have h3 : Py.toInt? "1".toList = some 1 := rfl
    have h4 : (Py.splitWs " SCORE abc ".toList).getLast? = some "abc".toList := rfl
    have h5 : Py.toFloat? "abc".toList = none := rfl
    have hlen : ((1 : Int) - 1) < ((t :: rest).length : Int) := by simp
    simp only [TweetWriter.rankStep, show Py.startsWith "TWEET 1: SCORE abc - nice".toList
      "TWEET".toList = true from rfl, if_true, h0, h1, h2, h3, h4, h5]
    rw [if_pos hlen]
    rfl
  refine ⟨fun ts llm => rfl, ?_, step_abc, ?_⟩
  · intro ts l h
    unfold shapeSkipped at h
    unfold TweetWriter.rankStep
    cases hs : Py.startsWith l "TWEET".toList with
    | false => simp
    | true =>
      rw [hs] at h
      simp only [Bool.not_true, Bool.false_or] at h
      simp only [if_true]
      rcases hsp : Py.splitChar ':' l with _ | ⟨p0, _ | ⟨p1, _ | ⟨p2, rest⟩⟩⟩ <;>
        rw [hsp] at h <;> simp_all
  · intro t rest llm prompt hllm
    have body_eq : TweetWriter.rankBody (t :: rest) llm prompt =
        match TweetWriter.rankLines (t :: rest)
            (Py.splitChar '\n' "TWEET 1: SCORE abc - nice".toList) with
        | .error e =>
          .error ⟨.writerError, "Failed to rank tweets: ".toList ++ e.msg⟩
        | .ok ts => .ok (pySorted scoreGe ts) := by
      unfold TweetWriter.rankBody
      rw [hllm]
    have hlines : TweetWriter.rankLines (t :: rest)
        (Py.splitChar '\n' "TWEET 1: SCORE abc - nice".toList) =
        .error ⟨.valueError, "could not convert string to float: 'abc'".toList⟩ := by
      have e1 : TweetWriter.rankLines (t :: rest)
          (Py.splitChar '\n' "TWEET 1: SCORE abc - nice".toList) =
          TweetWriter.rankStep (t :: rest) "TWEET 1: SCORE abc - nice".toList >>=
            fun b => TweetWriter.rankLines b [] := rfl
      rw [e1, step_abc t rest]
      rfl
    rw [body_eq, hlines]
    rfl

/-- Witness for `rank_error_discipline`: concrete instances of its four
conjuncts. -/
theorem rank_error_discipline_witness :
    TweetWriter.rank [{ id := "i1".toList, text := "a".toList }] (fun _ => .ok "x".toList) =
      .error ⟨.nameError, "name 'i' is not defined".toList⟩ ∧
    TweetWriter.rankStep [{ id := "i1".toList, text := "a".toList }] "no marker".toList =
      .ok [{ id := "i1".toList, text := "a".toList }] ∧
    TweetWriter.rankStep [{ id := "i1".toList, text := "a".toList }]
        "TWEET 1: SCORE abc - nice".toList =
      .error ⟨.valueError, "could not convert string to float: 'abc'".toList⟩ ∧
    TweetWriter.rankBody [{ id := "i1".toList, text := "a".toList }]
        (fun _ => .ok "TWEET 1: SCORE abc - nice".toList) "p".toList =
      .error ⟨.writerError,
        "Failed to rank tweets: could not convert string to float: 'abc'".toList⟩ :=
  ⟨rank_error_discipline.1 _ _,
   rank_error_discipline.2.1 _ "no marker".toList (by decide),
   rank_error_discipline.2.2.1 _ [],
   rank_error_discipline.2.2.2 _ [] _ "p".toList rfl⟩

namespace TweetWriter

def lineIdxI (l : Str) : Int :=
  match Py.splitChar ':' l with
  | [p0, _] =>
    match (Py.splitWs p0)[1]? with
    | some tok =>
      match Py.toInt? tok with
      | some i => i
      | none => 0
    | none => 0
  | _ => 0

def lineScoreQ (l : Str) : ℚ :=
  match Py.splitChar ':' l with
  | [_, p1] =>
    match Py.splitChar '-' p1 with
    | [s0, _] =>
      match (Py.splitWs s0).getLast? with
      | some stok =>
        match Py.toFloat? stok with
        | some sc => sc
        | none => 0
      | none => 0
    | _ => 0
  | _ => 0

def lineReasonS (l : Str) : Str :=
  match Py.splitChar ':' l with
  | [_, p1] =>
    match Py.splitChar '-' p1 with
    | [_, s1] => Py.strip s1
    | _ => []
  | _ => []

def wellFormedB (n : Nat) (l : Str) : Bool :=
  Py.startsWith l "TWEET".toList &&
  (match Py.splitChar ':' l with
   | [p0, p1] =>
     (match (Py.splitWs p0)[1]? with
      | some tok =>
        (match Py.toInt? tok with
         | some i => decide (1 ≤ i) && decide (i ≤ (n : Int)) &&
           (match Py.splitChar '-' p1 with
            | [s0, _] =>
              (match (Py.splitWs s0).getLast? with
               | some stok => (Py.toFloat? stok).isSome
               | none => false)
            | _ => false)
         | none => false)
      | none => false)
   | _ => false)


theorem wellFormed_destruct {n : Nat} {l : Str} (h : wellFormedB n l = true) :
    ∃ (p0 p1 s0 s1 tok stok : Str) (i : Int) (sc : ℚ),
      Py.startsWith l "TWEET".toList = true ∧
      Py.splitChar ':' l = [p0, p1] ∧
      (Py.splitWs p0)[1]? = some tok ∧
      Py.toInt? tok = some i ∧
      1 ≤ i ∧ i ≤ (n : Int) ∧
      Py.splitChar '-' p1 = [s0, s1] ∧
      (Py.splitWs s0).getLast? = some stok ∧
      Py.toFloat? stok = some sc ∧
      lineIdxI l = i ∧ lineScoreQ l = sc ∧ lineReasonS l = Py.strip s1 := by
  unfold wellFormedB at h
  rw [Bool.and_eq_true] at h
  obtain ⟨h1, h2⟩ := h
  rcases hsp : Py.splitChar ':' l with _ | ⟨p0, _ | ⟨p1, _ | ⟨p2, rest⟩⟩⟩
  · rw [hsp] at h2; simp at h2
  · rw [hsp] at h2; simp at h2
  · rw [hsp] at h2
    dsimp only at h2
    rcases hg : (Py.splitWs p0)[1]? with _ | tok
    · rw [hg] at h2; simp at h2
    rw [hg] at h2
    dsimp only at h2
    rcases hi : Py.toInt? tok with _ | i
    · rw [hi] at h2; simp at h2
    rw [hi] at h2
    dsimp only at h2
    rcases hsp2 : Py.splitChar '-' p1 with _ | ⟨s0, _ | ⟨s1, _ | ⟨s2, rest2⟩⟩⟩
    · rw [hsp2] at h2; simp at h2
    · rw [hsp2] at h2; simp at h2
    · rw [hsp2] at h2
      dsimp only at h2
      rcases hlast : (Py.splitWs s0).getLast? with _ | stok
      · rw [hlast] at h2; simp at h2
      rw [hlast] at h2
      dsimp only at h2
      rcases hf : Py.toFloat? stok with _ | sc
      · rw [hf] at h2; simp at h2
      rw [hf] at h2
      simp only [Bool.and_eq_true, decide_eq_true_eq] at h2
      refine ⟨p0, p1, s0, s1, tok, stok, i, sc, h1, rfl, hg, hi, h2.1.1, h2.1.2, hsp2,
        hlast, hf, ?_, ?_, ?_⟩
      · unfold lineIdxI
        rw [hsp]
        dsimp only
        rw [hg]
        dsimp only
        rw [hi]
      · unfold lineScoreQ
        rw [hsp]
        dsimp only
        rw [hsp2]
        dsimp only
        rw [hlast]
        dsimp only
        rw [hf]
      · unfold lineReasonS
        rw [hsp]
        dsimp only
        rw [hsp2]
    · rw [hsp2] at h2; simp at h2
  · rw [hsp] at h2; simp at h2

theorem wellFormed_idx_bounds {n : Nat} {l : Str} (h : wellFormedB n l = true) :
    1 ≤ lineIdxI l ∧ lineIdxI l ≤ (n : Int) := by
  obtain ⟨p0, p1, s0, s1, tok, stok, i, sc, _, _, _, _, hb1, hb2, _, _, _, hidx, _, _⟩ :=
    wellFormed_destruct h
  rw [hidx]
  exact ⟨hb1, hb2⟩

theorem length_setScore (ts : List DraftTweet) (k : Nat) (sc : ℚ) (r : Str) :
    (setScore ts k sc r).length = ts.length := by
  unfold setScore
  cases h : ts[k]? with
  | none => rfl
  | some t => simp

theorem getElem?_setScore_self (ts : List DraftTweet) (k : Nat) (sc : ℚ) (r : Str)
    (t : DraftTweet) (h : ts[k]? = some t) :
    (setScore ts k sc r)[k]? = some { t with score := some sc, reason := some r } := by
  unfold setScore
  rw [h]
  have hk : k < ts.length := by
    by_contra hk
    rw [List.getElem?_eq_none (by omega)] at h
    exact Option.noConfusion h
  simp [List.getElem?_set_self, hk]

theorem getElem?_setScore_ne (ts : List DraftTweet) (k p : Nat) (sc : ℚ) (r : Str)
    (hne : k ≠ p) : (setScore ts k sc r)[p]? = ts[p]? := by
  unfold setScore
  cases h : ts[k]? with
  | none => rfl
  | some t => simp [List.getElem?_set_ne hne]

theorem rankStep_wf (ts : List DraftTweet) (l : Str)
    (h : wellFormedB ts.length l = true) :
    rankStep ts l =
      .ok (setScore ts (lineIdxI l - 1).toNat (lineScoreQ l) (lineReasonS l)) := by
  obtain ⟨p0, p1, s0, s1, tok, stok, i, sc, h1, hsp, hg, hi, hb1, hb2, hsp2, hlast, hf,
    hidx, hscore, hreason⟩ := wellFormed_destruct h
  unfold rankStep
  rw [hidx, hscore, hreason]
  rw [h1]
  dsimp only [if_true]
  rw [hsp]
  dsimp only
  rw [hg]
  dsimp only
  rw [hi]
  dsimp only
  rw [hsp2]
  dsimp only
  rw [if_pos (show i - 1 < (ts.length : Int) by omega)]
  rw [hlast]
  dsimp only
  rw [hf]
  dsimp only
  rw [if_pos (show (0 : Int) ≤ i - 1 by omega)]
  rfl

end TweetWriter

namespace TweetWriter

theorem rankLines_wf_assign :
    ∀ (lines : List Str) (ts : List DraftTweet),
    (∀ l ∈ lines, wellFormedB ts.length l = true) →
    lines.Pairwise (fun l l' => lineIdxI l ≠ lineIdxI l') →
    ∃ ts', rankLines ts lines = .ok ts' ∧ ts'.length = ts.length ∧
      ∀ p : Nat, ts'[p]? =
        match lines.find? (fun l => decide (lineIdxI l = (p : Int) + 1)) with
        | some l => (ts[p]?).map (fun t =>
            { t with score := some (lineScoreQ l), reason := some (lineReasonS l) })
        | none => ts[p]? := by
  intro lines
  induction lines with
  | nil =>
    intro ts h hnd
    exact ⟨ts, rfl, rfl, fun p => by rw [List.find?_nil]⟩
  | cons l ls ih =>
    intro ts h hnd
    have hwf := h l (List.mem_cons_self l ls)
    have hstep := rankStep_wf ts l hwf
    have hbounds := wellFormed_idx_bounds hwf
    have hlen1 : (setScore ts (lineIdxI l - 1).toNat (lineScoreQ l) (lineReasonS l)).length
        = ts.length := length_setScore ts _ _ _
    have hpair := List.pairwise_cons.mp hnd
    obtain ⟨ts', hrun, hlen, hget⟩ :=
      ih (setScore ts (lineIdxI l - 1).toNat (lineScoreQ l) (lineReasonS l))
        (fun l' hl' => by rw [hlen1]; exact h l' (List.mem_cons_of_mem _ hl'))
        hpair.2
    have hidxq : lineIdxI l = ((lineIdxI l - 1).toNat : Int) + 1 := by omega
    refine ⟨ts', ?_, by rw [hlen, hlen1], ?_⟩
    · have e1 : rankLines ts (l :: ls) = rankStep ts l >>= fun b => rankLines b ls := rfl
      rw [e1, hstep]
      exact hrun
    · intro p
      by_cases hpq : lineIdxI l = (p : Int) + 1
      · have hqp : (lineIdxI l - 1).toNat = p := by omega
        have hfind : (l :: ls).find? (fun l' => decide (lineIdxI l' = (p : Int) + 1)) =
            some l := List.find?_cons_of_pos _ (by simp [hpq])
        rw [hfind]
        have hnone : ls.find? (fun l' => decide (lineIdxI l' = (p : Int) + 1)) = none := by
          apply List.find?_eq_none.mpr
          intro l' hl'
          simp only [decide_eq_true_eq]
          intro hcon
          exact (hpair.1 l' hl') (hpq.trans hcon.symm)
        have hthis := hget p
        rw [hnone] at hthis
        rw [hthis]
        have hplen : p < ts.length := by omega
        obtain ⟨t, ht⟩ : ∃ t, ts[p]? = some t := by
          rw [List.getElem?_eq_getElem hplen]
          exact ⟨_, rfl⟩
        rw [hqp] at hstep hlen1 ⊢
        rw [getElem?_setScore_self ts p _ _ t ht, ht]
        rfl
      · have hqne : (lineIdxI l - 1).toNat ≠ p := by omega
        have hfind : (l :: ls).find? (fun l' => decide (lineIdxI l' = (p : Int) + 1)) =
            ls.find? (fun l' => decide (lineIdxI l' = (p : Int) + 1)) :=
          List.find?_cons_of_neg _ (by simp [hpq])
        rw [hfind]
        have hts1p : (setScore ts (lineIdxI l - 1).toNat (lineScoreQ l) (lineReasonS l))[p]?
            = ts[p]? := getElem?_setScore_ne ts _ p _ _ hqne
        have hthis := hget p
        rw [hts1p] at hthis
        exact hthis

end TweetWriter

/-- C4 counterexample.  Candidate list `[{id "i1", text "a"}]`, backend
response `TWEET 1: SCORE 0.5 - well-made` — well-formed in the claim's
sense (split at the *first* colon and *first* hyphen would give index 1,
score 0.5, reason "well-made").  The claim predicts the candidate at
position 0 receives that score and reason; in fact (1) `rank` fails
outright with the prompt-construction `NameError`, and (2) even the
parsing loop itself, run on that response, leaves the candidate
untouched, because `line.split(':')` / `split('-')` split at *every*
colon/hyphen and the loop demands exactly two parts — the hyphen inside
"well-made" gives three. -/
theorem rank_first_split_claim_false :
    TweetWriter.rank [{ id := "i1".toList, text := "a".toList }]
        (fun _ => .ok "TWEET 1: SCORE 0.5 - well-made".toList) =
      .error ⟨.nameError, "name 'i' is not defined".toList⟩ ∧
    TweetWriter.rankLines [{ id := "i1".toList, text := "a".toList }]
        (Py.splitChar '\n' "TWEET 1: SCORE 0.5 - well-made".toList) =
      .ok [{ id := "i1".toList, text := "a".toList }] :=
  ⟨rfl, rfl⟩

/-- C4 amended.  (1) `rank` itself always fails with the prompt
`NameError` before parsing anything.  (2) In the parsing loop
(`tweet_writer.py` lines 62-72), for a response whose lines each start
with `TWEET`, contain exactly one colon and exactly one hyphen, carry a
parsable integer index `i` with `1 ≤ i ≤ len(tweets)` and a parsable
final score token — and no two lines carry the same index — the loop
succeeds, assigning to the candidate at position `i − 1` the line's score
(the float of the last whitespace token before the hyphen) and reason
(the stripped text after the hyphen), while every candidate referenced by
no line is left unchanged. -/
theorem rank_assignment_semantics :
    (∀ (ts : List DraftTweet) (llm : LLM),
      TweetWriter.rank ts llm = .error ⟨.nameError, "name 'i' is not defined".toList⟩) ∧
    (∀ (lines : List Str) (ts : List DraftTweet),
      (∀ l ∈ lines, TweetWriter.wellFormedB ts.length l = true) →
      lines.Pairwise (fun l l' => TweetWriter.lineIdxI l ≠ TweetWriter.lineIdxI l') →
      ∃ ts', TweetWriter.rankLines ts lines = .ok ts' ∧ ts'.length = ts.length ∧
        ∀ p : Nat, ts'[p]? =
          match lines.find? (fun l => decide (TweetWriter.lineIdxI l = (p : Int) + 1)) with
          | some l => (ts[p]?).map (fun t =>
              { t with score := some (TweetWriter.lineScoreQ l),
                       reason := some (TweetWriter.lineReasonS l) })
          | none => ts[p]?) :=
  ⟨fun _ _ => rfl, TweetWriter.rankLines_wf_assign⟩

/-- Witness for `rank_assignment_semantics`: two candidates, one
well-formed line scoring the first; the first candidate receives score
`0.9` and reason `good`, the second stays untouched. -/
theorem rank_assignment_semantics_witness :
    ∃ ts', TweetWriter.rankLines
        [{ id := "i1".toList, text := "a".toList },
         { id := "i2".toList, text := "b".toList }]
        ["TWEET 1: SCORE 0.9 - good".toList] = .ok ts' ∧
      ts'.length =
        ([{ id := "i1".toList, text := "a".toList },
          { id := "i2".toList, text := "b".toList }] : List DraftTweet).length ∧
      ∀ p : Nat, ts'[p]? =
        match ["TWEET 1: SCORE 0.9 - good".toList].find?
            (fun l => decide (TweetWriter.lineIdxI l = (p : Int) + 1)) with
        | some l =>
          (([{ id := "i1".toList, text := "a".toList },
             { id := "i2".toList, text := "b".toList }] : List DraftTweet)[p]?).map
            (fun t => { t with score := some (TweetWriter.lineScoreQ l),
                               reason := some (TweetWriter.lineReasonS l) })
        | none =>
          ([{ id := "i1".toList, text := "a".toList },
            { id := "i2".toList, text := "b".toList }] : List DraftTweet)[p]? :=
  rank_assignment_semantics.2
    ["TWEET 1: SCORE 0.9 - good".toList]
    [{ id := "i1".toList, text := "a".toList },
     { id := "i2".toList, text := "b".toList }]
    (by decide) (by decide)

theorem startsWith_marker_decompose (l : Str)
    (h : Py.startsWith l TweetWriter.marker = true) :
    l = TweetWriter.marker ++ l.drop 6 := by
  unfold Py.startsWith at h
  have hpre : TweetWriter.marker <+: l := List.isPrefixOf_iff_prefix.mp h
  obtain ⟨t, ht⟩ := hpre
  rw [← ht]
  rw [List.drop_left' (show (TweetWriter.marker).length = 6 from rfl)]

theorem enum_map_comp_snd (l : List β) (h : β → γ) :
    l.enum.map (fun p => h p.2) = l.map h := by
  rw [show (fun p : Nat × β => h p.2) = (h ∘ Prod.snd) from rfl, ← List.map_map,
    List.enum_map_snd]

/-- C9 amended.  For any backend response, `draft` yields one candidate
per line whose *stripped* form starts with the marker `TWEET:`; the
candidate's text is `line[6:].strip()` of the *raw* line (which strips the
marker only when the line starts with it at column 0 — the final conjunct;
an indented marker line is mangled instead, see the counterexample); the
texts appear in document order, at most `n` candidates are returned
(fewer when fewer marker lines appear), and each candidate carries a
fresh id, all pairwise distinct when the id stream is injective. -/
theorem draft_marker_extraction (bullets : List Str) (n chars : Nat) (llm : LLM)
    (ids : Nat → Str) (resp : Str)
    (hresp : llm (TweetWriter.draftPromptText bullets n chars) = .ok resp)
    (hinj : Function.Injective ids) :
    ∃ ts, TweetWriter.draft bullets n chars llm ids = .ok ts ∧
      ts.map DraftTweet.text =
        (((Py.splitChar '\n' resp).filter
            (fun l => Py.startsWith (Py.strip l) TweetWriter.marker)).map
          (fun l => Py.strip (l.drop 6))).take n ∧
      ts.length ≤ n ∧
      (ts.map DraftTweet.id).Nodup ∧
      (∀ l : Str, Py.startsWith l TweetWriter.marker = true →
        l = TweetWriter.marker ++ l.drop 6) := by
  have hdraft : TweetWriter.draft bullets n chars llm ids =
      .ok ((((Py.splitChar '\n' resp).filter
          (fun l => Py.startsWith (Py.strip l) TweetWriter.marker)).enum.map
        (fun p => ({ id := ids p.1, text := Py.strip (p.2.drop 6) } : DraftTweet))).take n) := by
    unfold TweetWriter.draft
    rw [hresp]
  refine ⟨_, hdraft, ?_, ?_, ?_, fun l h => startsWith_marker_decompose l h⟩
  · rw [← List.map_take, List.map_map]
    rw [show (DraftTweet.text ∘ fun p : Nat × Str =>
        ({ id := ids p.1, text := Py.strip (p.2.drop 6) } : DraftTweet)) =
        (fun p : Nat × Str => Py.strip (p.2.drop 6)) from rfl]
    rw [List.map_take]
    exact congrArg (List.take n) (enum_map_comp_snd _ (fun l : Str => Py.strip (l.drop 6)))
  · simp
  · rw [← List.map_take, List.map_map]
    rw [show (DraftTweet.id ∘ fun p : Nat × Str =>
        ({ id := ids p.1, text := Py.strip (p.2.drop 6) } : DraftTweet)) =
        (ids ∘ Prod.fst) from rfl]
    rw [List.map_take, ← List.map_map, List.enum_map_fst]
    exact (((List.nodup_range _).map hinj).sublist (List.take_sublist _ _))

/-- Witness for `draft_marker_extraction`: two marker lines, `n = 3`,
an injective id stream. -/
theorem draft_marker_extraction_witness :
    ∃ ts, TweetWriter.draft ["b".toList] 3 280
        (fun _ => .ok "TWEET: hi\nTWEET: yo".toList)
        (fun k => List.replicate k 'u') = .ok ts ∧
      ts.map DraftTweet.text =
        (((Py.splitChar '\n' "TWEET: hi\nTWEET: yo".toList).filter
            (fun l => Py.startsWith (Py.strip l) TweetWriter.marker)).map
          (fun l => Py.strip (l.drop 6))).take 3 ∧
      ts.length ≤ 3 ∧
      (ts.map DraftTweet.id).Nodup ∧
      (∀ l : Str, Py.startsWith l TweetWriter.marker = true →
        l = TweetWriter.marker ++ l.drop 6) :=
  draft_marker_extraction ["b".toList] 3 280
    (fun _ => .ok "TWEET: hi\nTWEET: yo".toList)
    (fun k => List.replicate k 'u') "TWEET: hi\nTWEET: yo".toList rfl
    (fun a b h => by simpa using congrArg List.length h)

/-- C9 counterexample.  A response whose only line carries the marker
after two spaces of indentation: the line passes the
`line.strip().startswith('TWEET:')` test, but the candidate text is
`line[6:].strip()` of the raw line — `"T: hi"` — so the marker is *not*
stripped (the claim predicts `"hi"`); part of the marker even survives in
the text. -/
theorem draft_indented_marker_not_stripped :
    TweetWriter.draft ["b".toList] 3 280
        (fun _ => .ok "  TWEET: hi".toList) (fun k => List.replicate k 'u') =
      .ok [{ id := [], text := "T: hi".toList }] ∧
    "T: hi".toList ≠ "hi".toList :=
  ⟨rfl, by decide⟩

namespace OpenAIP

theorem generate_tweets_texts (ts : List RawTweet) (n : Nat) (cs : List CleanTweet)
    (h : generate_tweets ts n = .ok cs) :
    cs.map CleanTweet.text = (ts.take n).map (fun t => truncate280 (Py.strip t.text)) := by
  unfold generate_tweets at h
  dsimp only at h
  split at h
  · exact Except.noConfusion h
  · injection h with h
    subst h
    rw [List.map_map]
    rfl

theorem truncate280_long (s : Str) (h : 280 < s.length) :
    truncate280 s = s.take 277 ++ "…".toList := by
  unfold truncate280
  rw [if_pos h]

theorem truncate280_short (s : Str) (h : s.length ≤ 280) : truncate280 s = s := by
  unfold truncate280
  rw [if_neg (by omega)]

theorem format_skips_blanks (ts : List CleanTweet) (tags : List Str) :
    format_for_twitter ts tags =
      (ts.filter (fun t => decide (Py.strip t.text ≠ []))).map
        (fun t => formatOne (tagBlock tags) (Py.strip t.text)) := by
  unfold format_for_twitter
  induction ts with
  | nil => rfl
  | cons t ts ih =>
    by_cases hb : Py.strip t.text = []
    · simp only [List.filterMap_cons, List.filter_cons, hb]
      simp [ih, hb]
    · simp only [List.filterMap_cons, List.filter_cons]
      simp [ih, hb]

end OpenAIP

set_option maxRecDepth 4000 in
/-- C2 counterexample.  A 281-character candidate text: the emitted text
is the first 277 characters plus the marker (total 278), not the first
`280 − 1 = 279` characters plus the marker as claimed. -/
theorem truncation_is_277_not_279 :
    OpenAIP.generate_tweets [{ text := List.replicate 281 'a' }] 3 =
      .ok [{ text := List.replicate 277 'a' ++ "…".toList,
             image_prompt := none, alt_text := none }] ∧
    List.replicate 277 'a' ++ "…".toList ≠
      (List.replicate 281 'a').take 279 ++ "…".toList :=
  ⟨rfl, by decide⟩

/-- C2 amended.  Every candidate the parser emits carries
`truncate280` of its stripped source text, in order, capped at `n`; a
stripped text longer than 280 is truncated to its first
`280 − 3 = 277` characters plus the one-character marker `…` (total
length 278), and a text of at most 280 characters passes through
unchanged. -/
theorem parser_truncation (ts : List OpenAIP.RawTweet) (n : Nat)
    (cs : List OpenAIP.CleanTweet) (h : OpenAIP.generate_tweets ts n = .ok cs) :
    cs.map OpenAIP.CleanTweet.text =
      (ts.take n).map (fun t => OpenAIP.truncate280 (Py.strip t.text)) ∧
    (∀ s : Str, 280 < s.length →
      OpenAIP.truncate280 s = s.take 277 ++ "…".toList) ∧
    (∀ s : Str, s.length ≤ 280 → OpenAIP.truncate280 s = s) :=
  ⟨OpenAIP.generate_tweets_texts ts n cs h,
   OpenAIP.truncate280_long, OpenAIP.truncate280_short⟩

/-- Witness for `parser_truncation`. -/
theorem parser_truncation_witness :
    ([{ text := "x".toList, image_prompt := none,
        alt_text := none }] : List OpenAIP.CleanTweet).map OpenAIP.CleanTweet.text =
      (([{ text := "x".toList }] : List OpenAIP.RawTweet).take 2).map
        (fun t => OpenAIP.truncate280 (Py.strip t.text)) ∧
    (∀ s : Str, 280 < s.length →
      OpenAIP.truncate280 s = s.take 277 ++ "…".toList) ∧
    (∀ s : Str, s.length ≤ 280 → OpenAIP.truncate280 s = s) :=
  parser_truncation [{ text := "x".toList }] 2
    [{ text := "x".toList, image_prompt := none, alt_text := none }] rfl

/-- C7.  The normalisation step of `generate_tweets` fails — with the
`RuntimeError` raised at `openai.py` line 118, which is what the spec's
taxonomy names `ParseError` — whenever the extraction branches produced
no candidate, and it never returns an empty list as a success. -/
theorem parser_never_empty_success (ts : List OpenAIP.RawTweet) (n : Nat) :
    (ts = [] → OpenAIP.generate_tweets ts n =
      .error ⟨.runtimeError, "No tweets parsed from LLM output".toList⟩) ∧
    OpenAIP.generate_tweets ts n ≠ .ok [] := by
  constructor
  · rintro rfl
    simp [OpenAIP.generate_tweets]
  · intro hcon
    unfold OpenAIP.generate_tweets at hcon
    dsimp only at hcon
    split at hcon
    · exact Except.noConfusion hcon
    · injection hcon with hcon
      simp_all

/-- Witness for `parser_never_empty_success`. -/
theorem parser_never_empty_success_witness :
    OpenAIP.generate_tweets [] 3 =
      .error ⟨.runtimeError, "No tweets parsed from LLM output".toList⟩ ∧
    OpenAIP.generate_tweets ([] : List OpenAIP.RawTweet) 3 ≠ .ok [] :=
  ⟨(parser_never_empty_success [] 3).1 rfl, (parser_never_empty_success [] 3).2⟩

/-- C8 counterexample.  (1) A candidate whose text is `"hi"` *with
enclosing double quotes*: the parser emits it with the quotes intact
(only whitespace is stripped).  (2) A candidate of pure whitespace: its
trimmed text is empty, yet it is *not* dropped — the parser returns an
empty-text candidate. -/
theorem parser_keeps_quotes_and_empties :
    OpenAIP.generate_tweets [{ text := ('\"' :: ('h' :: ('i' :: ['\"']))) }] 3 =
      .ok [{ text := '\"' :: ('h' :: ('i' :: ['\"'])),
             image_prompt := none, alt_text := none }] ∧
    OpenAIP.generate_tweets [{ text := "   ".toList }] 3 =
      .ok [{ text := [], image_prompt := none, alt_text := none }] :=
  ⟨rfl, rfl⟩

/-- C8 amended.  The parser trims surrounding *whitespace* only —
enclosing quotation marks survive — and drops nothing: it emits one
candidate per extracted candidate (up to `n`), empty texts included.
Empty-text entries are dropped later, by `format_for_twitter`, which
skips every tweet whose stripped body is empty and formats the rest in
order. -/
theorem parser_trim_only_formatter_drops :
    (∀ (ts : List OpenAIP.RawTweet) (n : Nat) (cs : List OpenAIP.CleanTweet),
      OpenAIP.generate_tweets ts n = .ok cs →
      cs.map OpenAIP.CleanTweet.text =
        (ts.take n).map (fun t => OpenAIP.truncate280 (Py.strip t.text))) ∧
    (∀ (ts : List OpenAIP.CleanTweet) (tags : List Str),
      OpenAIP.format_for_twitter ts tags =
        (ts.filter (fun t => decide (Py.strip t.text ≠ []))).map
          (fun t => OpenAIP.formatOne (OpenAIP.tagBlock tags) (Py.strip t.text))) :=
  ⟨OpenAIP.generate_tweets_texts, OpenAIP.format_skips_blanks⟩

/-- Witness for `parser_trim_only_formatter_drops`. -/
theorem parser_trim_only_formatter_drops_witness :
    ([{ text := "hi".toList, image_prompt := none,
        alt_text := none }] : List OpenAIP.CleanTweet).map OpenAIP.CleanTweet.text =
      (([{ text := " hi ".toList }] : List OpenAIP.RawTweet).take 3).map
        (fun t => OpenAIP.truncate280 (Py.strip t.text)) ∧
    OpenAIP.format_for_twitter
        [{ text := "hi".toList, image_prompt := none, alt_text := none },
         { text := "  ".toList, image_prompt := none, alt_text := none }] [] =
      (([{ text := "hi".toList, image_prompt := none, alt_text := none },
          { text := "  ".toList, image_prompt := none,
            alt_text := none }] : List OpenAIP.CleanTweet).filter
        (fun t => decide (Py.strip t.text ≠ []))).map
          (fun t => OpenAIP.formatOne (OpenAIP.tagBlock []) (Py.strip t.text)) :=
  ⟨parser_trim_only_formatter_drops.1 [{ text := " hi ".toList }] 3
      [{ text := "hi".toList, image_prompt := none, alt_text := none }] rfl,
   parser_trim_only_formatter_drops.2
      [{ text := "hi".toList, image_prompt := none, alt_text := none },
       { text := "  ".toList, image_prompt := none, alt_text := none }] []⟩

/-! ## Claims about the draft store -/

theorem recordToTweet_tweetToRecord (t : DraftTweet) :
    Drafts.recordToTweet (Drafts.tweetToRecord t) = .ok t := by
  rcases t with ⟨i, tx, sc, rs⟩
  cases sc <;> cases rs <;> rfl

theorem mapRecords_map_tweetToRecord (ts : List DraftTweet) :
    Drafts.mapRecords (ts.map Drafts.tweetToRecord) = .ok ts := by
  induction ts with
  | nil => rfl
  | cons t ts ih =>
    rw [List.map_cons]
    unfold Drafts.mapRecords
    rw [recordToTweet_tweetToRecord, ih]

/-- C6.  Round trip of the draft store: loading the file `save` just
wrote yields exactly the saved candidates — same `id`, `text`, `score`
and `reason`, in the same order — for every category, topic, date,
target directory and prior filesystem state. -/
theorem load_save_round_trip (category topic : Str) (tweets : List DraftTweet)
    (out_dir : Option FsPath) (today : Str) (fs : FS) :
    Drafts.load (Drafts.save category topic tweets out_dir today fs).1
      (Drafts.save category topic tweets out_dir today fs).2 = .ok tweets := by
  unfold Drafts.save Drafts.load Storage.save_jsonl Storage.load_jsonl
  dsimp only
  rw [List.filter_cons_of_pos (by simp)]
  dsimp only [List.head?]
  exact mapRecords_map_tweetToRecord tweets

/-- C10.  `list_drafts` globs the fixed home drafts directory only: every
path it returns has parent `DRAFTS_DIR`, so the file `save` writes into
any other directory — whatever the category filter and whatever the
filesystem at the time of listing — is never among its results. -/
theorem save_elsewhere_invisible_to_list_drafts (category topic : Str)
    (tweets : List DraftTweet) (out_dir : FsPath) (today : Str) (fs fs' : FS)
    (category' : Option Str) (h : out_dir ≠ Drafts.DRAFTS_DIR) :
    (Drafts.save category topic tweets (some out_dir) today fs).1 ∉
      Drafts.list_drafts fs' category' := by
  intro hmem
  unfold Drafts.list_drafts at hmem
  rw [mem_pySorted] at hmem
  obtain ⟨-, hcond⟩ := List.mem_filter.mp hmem
  rw [Bool.and_eq_true] at hcond
  have hparent : (Drafts.save category topic tweets (some out_dir) today fs).1.dropLast =
      Drafts.DRAFTS_DIR := by
    have := hcond.1
    simpa using this
  unfold Drafts.save at hparent
  dsimp only at hparent
  rw [List.dropLast_concat] at hparent
  exact h hparent

/-- Witness for `save_elsewhere_invisible_to_list_drafts`: saving into
`/tmp` and listing right afterwards, with and without category filter. -/
theorem save_elsewhere_invisible_witness :
    (Drafts.save "digest".toList "ai".toList [] (some ["tmp".toList]) "2026-10-12".toList
        []).1 ∉
      Drafts.list_drafts
        (Drafts.save "digest".toList "ai".toList [] (some ["tmp".toList])
          "2026-10-12".toList []).2 none :=
  save_elsewhere_invisible_to_list_drafts "digest".toList "ai".toList [] ["tmp".toList]
    "2026-10-12".toList [] _ none (by decide)

/-! ## The orchestrator claim -/

/-- Which stage failure, with which message, underlies a failed pipeline
run (`daily_digest.py` lines 25-35): provider lookup, collect, draft, or
rank.  (`refine` is a pure pass-through and `save` is modelled as the
always-succeeding filesystem update it is, so neither contributes an
error case.) -/
def stageFailedWith (registry : LLMBase.Registry) (topic : Str) (hours n chars : Nat)
    (provider model : Str) (ids : Nat → Str) (m : Str) : Prop :=
  (∃ k, LLMBase.get_client registry provider model = .error ⟨k, m⟩) ∨
  ∃ llm, LLMBase.get_client registry provider model = .ok llm ∧
    ((∃ k, WebSearch.collect topic hours llm = .error ⟨k, m⟩) ∨
     ∃ bullets, WebSearch.collect topic hours llm = .ok bullets ∧
       ((∃ k, TweetWriter.draft bullets n chars llm ids = .error ⟨k, m⟩) ∨
        ∃ drafts, TweetWriter.draft bullets n chars llm ids = .ok drafts ∧
          (∃ k, TweetWriter.rank (TweetWriter.refine drafts) llm = .error ⟨k, m⟩)))

/-- C1.  The orchestrator's failure boundary: whenever any stage errors,
the caller receives a single `PipelineError` whose message is
`"Pipeline failed: "` followed by the failing stage's own message, and
the filesystem is untouched; conversely the filesystem changes only on a
run that returns a path, i.e. one that reached `save` — which writes the
digest file and returns its path. -/
theorem pipeline_error_boundary (registry : LLMBase.Registry) (topic : Str)
    (hours n chars : Nat) (provider model : Str) (out_dir : Option FsPath)
    (today : Str) (ids : Nat → Str) (fs : FS) :
    (∀ e fs₂, Pipeline.run registry topic hours n chars provider model out_dir today ids fs
        = (.error e, fs₂) →
      fs₂ = fs ∧ e.kind = .pipelineError ∧
      ∃ m, e.msg = "Pipeline failed: ".toList ++ m ∧
        stageFailedWith registry topic hours n chars provider model ids m) ∧
    (∀ r fs₂, Pipeline.run registry topic hours n chars provider model out_dir today ids fs
        = (r, fs₂) → fs₂ ≠ fs →
      ∃ ranked, r = .ok (Drafts.save "digest".toList topic ranked out_dir today fs).1 ∧
        fs₂ = (Drafts.save "digest".toList topic ranked out_dir today fs).2) := by
  cases hc : LLMBase.get_client registry provider model with
  | error e0 =>
    have heq : Pipeline.run registry topic hours n chars provider model out_dir today ids fs
        = (.error (Pipeline.pipeWrap e0), fs) := by
      simp only [Pipeline.run, hc]
    refine ⟨?_, ?_⟩
    · intro e fs₂ hrun
      rw [heq] at hrun
      injection hrun with h1 h2
      injection h1 with h1
      subst h1 h2
      exact ⟨rfl, rfl, e0.msg, rfl, Or.inl ⟨e0.kind, hc⟩⟩
    · intro r fs₂ hrun hne
      rw [heq] at hrun
      injection hrun with h1 h2
      exact absurd h2.symm hne
  | ok llm =>
    cases hcol : WebSearch.collect topic hours llm with
    | error e0 =>
      have heq : Pipeline.run registry topic hours n chars provider model out_dir today
          ids fs = (.error (Pipeline.pipeWrap e0), fs) := by
        simp only [Pipeline.run, hc, hcol]
      refine ⟨?_, ?_⟩
      · intro e fs₂ hrun
        rw [heq] at hrun
        injection hrun with h1 h2
        injection h1 with h1
        subst h1 h2
        exact ⟨rfl, rfl, e0.msg, rfl, Or.inr ⟨llm, hc, Or.inl ⟨e0.kind, hcol⟩⟩⟩
      · intro r fs₂ hrun hne
        rw [heq] at hrun
        injection hrun with h1 h2
        exact absurd h2.symm hne
    | ok bullets =>
      cases hd : TweetWriter.draft bullets n chars llm ids with
      | error e0 =>
        have heq : Pipeline.run registry topic hours n chars provider model out_dir today
            ids fs = (.error (Pipeline.pipeWrap e0), fs) := by
          simp only [Pipeline.run, hc, hcol, hd]
        refine ⟨?_, ?_⟩
        · intro e fs₂ hrun
          rw [heq] at hrun
          injection hrun with h1 h2
          injection h1 with h1
          subst h1 h2
          exact ⟨rfl, rfl, e0.msg, rfl,
            Or.inr ⟨llm, hc, Or.inr ⟨bullets, hcol, Or.inl ⟨e0.kind, hd⟩⟩⟩⟩
        · intro r fs₂ hrun hne
          rw [heq] at hrun
          injection hrun with h1 h2
          exact absurd h2.symm hne
      | ok drafts =>
        cases hr : TweetWriter.rank (TweetWriter.refine drafts) llm with
        | error e0 =>
          have heq : Pipeline.run registry topic hours n chars provider model out_dir
              today ids fs = (.error (Pipeline.pipeWrap e0), fs) := by
            simp only [Pipeline.run, hc, hcol, hd, hr]
          refine ⟨?_, ?_⟩
          · intro e fs₂ hrun
            rw [heq] at hrun
            injection hrun with h1 h2
            injection h1 with h1
            subst h1 h2
            exact ⟨rfl, rfl, e0.msg, rfl,
              Or.inr ⟨llm, hc, Or.inr ⟨bullets, hcol,
                Or.inr ⟨drafts, hd, ⟨e0.kind, hr⟩⟩⟩⟩⟩
          · intro r fs₂ hrun hne
            rw [heq] at hrun
            injection hrun with h1 h2
            exact absurd h2.symm hne
        | ok ranked =>
          have heq : Pipeline.run registry topic hours n chars provider model out_dir
              today ids fs =
              (.ok (Drafts.save "digest".toList topic ranked out_dir today fs).1,
               (Drafts.save "digest".toList topic ranked out_dir today fs).2) := by
            simp only [Pipeline.run, hc, hcol, hd, hr]
          refine ⟨?_, ?_⟩
          · intro e fs₂ hrun
            rw [heq] at hrun
            injection hrun with h1 h2
            exact Except.noConfusion h1
          · intro r fs₂ hrun hne
            rw [heq] at hrun
            injection hrun with h1 h2
            exact ⟨ranked, h1.symm, h2.symm⟩

/-- Witness for `pipeline_error_boundary`: an empty registry, so the
provider-lookup stage fails with `Unknown LLM provider: openai` and the
run returns the wrapped `PipelineError` with the filesystem untouched. -/
theorem pipeline_error_boundary_witness :
    ([] : FS) = ([] : FS) ∧
    (Pipeline.pipeWrap ⟨.valueError, "Unknown LLM provider: openai".toList⟩).kind =
      ErrKind.pipelineError ∧
    ∃ m, (Pipeline.pipeWrap ⟨.valueError, "Unknown LLM provider: openai".toList⟩).msg =
        "Pipeline failed: ".toList ++ m ∧
      stageFailedWith [] "ai".toList 24 3 280 "openai".toList "m".toList
        (fun k => List.replicate k 'u') m :=
  (pipeline_error_boundary [] "ai".toList 24 3 280 "openai".toList "m".toList
      none "2026-10-12".toList (fun k => List.replicate k 'u') []).1
    (Pipeline.pipeWrap ⟨.valueError, "Unknown LLM provider: openai".toList⟩) [] rfl
